import Mathlib

/-!
Verification of the adaptive PDF page-rendering pipeline of
`src/app.py` against its natural-language specification.

The pure computations of the pipeline (size estimation, the quality
policy, the resize arithmetic, the size ceiling check) are embedded
directly; the external collaborators (PyMuPDF decode/rasterize, PIL
encode) are modelled by an oracle recording whether each fallible call
succeeds, and the handler/processing functions are embedded as functions
of that oracle which additionally report how many times the decoder was
invoked and how many times the document handle was closed.
-/

/-- The `QualitySettings` dataclass of src/app.py (lines 23-29).  The
Python field defaults are collected in `QualitySettings.default`. -/
structure QualitySettings where
  dpi : Nat
  format : String
  max_dimension : Nat
  quality : Nat
  optimize : Bool
deriving Repr, DecidableEq

/-- The dataclass defaults: `dpi = 150`, `format = "JPEG"`,
`max_dimension = 1800`, `quality = 75`, `optimize = True`. -/
def QualitySettings.default : QualitySettings :=
  { dpi := 150, format := "JPEG", max_dimension := 1800, quality := 75, optimize := true }

/-- `QualitySettings.adjust_for_page_size` (src/app.py lines 31-39).  The
Python method mutates the settings object in place; here it returns the
updated record.  `page_size_mb > 15` sets dpi 125 / quality 70 /
max_dimension 1600; otherwise `page_size_mb > 8` sets dpi 150 /
quality 75 / max_dimension 1800; otherwise nothing changes. -/
def QualitySettings.adjust_for_page_size (s : QualitySettings) (page_size_mb : ℚ) :
    QualitySettings :=
  if page_size_mb > 15 then
    { s with dpi := 125, quality := 70, max_dimension := 1600 }
  else if page_size_mb > 8 then
    { s with dpi := 150, quality := 75, max_dimension := 1800 }
  else s

/-- The per-page size estimate computed at src/app.py line 145:
`(page.rect.width * page.rect.height * settings.dpi * settings.dpi)
/ (72 * 72 * 1024 * 1024)`. -/
def estimated_size (width height : ℚ) (dpi : Nat) : ℚ :=
  (width * height * (dpi : ℚ) * (dpi : ℚ)) / (72 * 72 * 1024 * 1024)

/-- The spec's stated `EstimatedSize` formula, for comparison with the
code's `estimated_size`:
`width_pt * height_pt * (dpi/72)^2 * 3 / (1024*1024)`
(three bytes per RGB pixel, converted to MB). -/
def estimatedSizeSpec (width height : ℚ) (dpi : Nat) : ℚ :=
  width * height * ((dpi : ℚ) / 72) ^ 2 * 3 / (1024 * 1024)

/-- The resize step of `process_page_to_image` (src/app.py lines 103-111)
acting on the raster dimensions, together with a count of resize
operations performed.  The Python code tests
`max(img.size) > settings.max_dimension`, computes
`ratio = max_dimension / max(width, height)` and truncates
`int(width * ratio)` and `int(height * ratio)`; on nonnegative integers
these truncations are the floor divisions below, and the resize is
performed exactly once when the test holds and not at all otherwise. -/
def resize_dims (maxDim w h : Nat) : (Nat × Nat) × Nat :=
  if maxDim < max w h then
    ((w * maxDim / max w h, h * maxDim / max w h), 1)
  else ((w, h), 0)

/-- Page geometry in points, as read from `page.rect`. -/
structure PageGeom where
  width : ℚ
  height : ℚ
deriving Repr, DecidableEq

/-- Behaviour of the external collaborators (PyMuPDF decode, PIL encode)
during one call of `process_single_page`:
* `openResult`: `some pages` when `fitz.open` succeeds on the supplied
  bytes, giving each page's geometry in document order; `none` when it
  raises.
* `stepError`: `some msg` when an exception is raised during page
  loading, rasterization, resizing or encoding; `none` when every step
  succeeds.
* `rasterW`, `rasterH`: the pixel dimensions of the raster produced by
  `page.get_pixmap`.
* `encoded`: the base64 text of the encoded image on success. -/
structure Oracle where
  openResult : Option (List PageGeom)
  stepError : Option String
  rasterW : Nat
  rasterH : Nat
  encoded : String

/-- Collaborator calls observed during one request: how many times
`fitz.open` was invoked, and how many times the document handle was
closed (`doc.close()` in the `finally` block). -/
structure ExecStats where
  openCalls : Nat
  closeCalls : Nat
deriving Repr, DecidableEq

/-- The dictionary returned by `process_single_page` (src/app.py lines
119-192): on success it has the keys `image`, `total_pages`,
`page_dimensions` and `settings_used`; on the out-of-range path it has
`error` and `total_pages`; on an exception it has `error` (and a
traceback, not modelled). -/
structure PSPReturn where
  image : Option String
  error : Option String
  total_pages : Option Nat
  page_dimensions : Option (Nat × Nat)
  settings_used : Option QualitySettings
deriving Repr, DecidableEq

/-- `process_single_page` (src/app.py lines 119-192).  The try-block
opens the document (`fitz.open`), rejects `page_num >= total_pages`,
estimates the page size from the default settings' dpi, adjusts the
settings, rasterizes/resizes/encodes, and returns the success
dictionary; any exception is caught and returned as an error
dictionary; the `finally` block closes the document handle exactly when
it was opened (`doc` is still `None` when `fitz.open` raised).  The
second component records the collaborator calls: `fitz.open` is always
invoked once, and `doc.close()` runs on every path on which the open
succeeded. -/
def process_single_page (o : Oracle) (page_num : Nat) : PSPReturn × ExecStats :=
  match o.openResult with
  | none =>
      ({ image := none, error := some "open failed", total_pages := none,
         page_dimensions := none, settings_used := none },
       { openCalls := 1, closeCalls := 0 })
  | some pages =>
      let total := pages.length
      if total ≤ page_num then
        ({ image := none, error := some "Page number exceeds document length",
           total_pages := some total, page_dimensions := none, settings_used := none },
         { openCalls := 1, closeCalls := 1 })
      else
        match o.stepError with
        | some msg =>
            ({ image := none, error := some msg, total_pages := none,
               page_dimensions := none, settings_used := none },
             { openCalls := 1, closeCalls := 1 })
        | none =>
            let geom := pages.getD page_num { width := 0, height := 0 }
            let s0 := QualitySettings.default
            let est := estimated_size geom.width geom.height s0.dpi
            let s := s0.adjust_for_page_size est
            let dims := (resize_dims s.max_dimension o.rasterW o.rasterH).1
            ({ image := some o.encoded, error := none, total_pages := some total,
               page_dimensions := some dims, settings_used := some s },
             { openCalls := 1, closeCalls := 1 })

/-- The outer handler's response (src/app.py lines 194-231) after the
multipart-file checks: either the oversize rejection (HTTP 413), or the
JSON from `process_single_page`, with status 500 when that dictionary
carries an `error` key and 200 otherwise. -/
inductive HandlerResponse where
  | sizeError (status : Nat)
  | pageResponse (r : PSPReturn) (status : Nat)
deriving Repr, DecidableEq

/-- `handle_convert_page` (src/app.py lines 194-231) on an upload of
`pdf_len` bytes: it computes `file_size_mb = len(pdf_data) / (1024 * 1024)`
(exact in floating point for these magnitudes, since the divisor is a
power of two, so modelled by exact rational division), rejects
`file_size_mb > 30` with HTTP 413 before any decode call, and otherwise
runs `process_single_page` and relays its dictionary. -/
def handle_convert_page (pdf_len : Nat) (o : Oracle) (page_num : Nat) :
    HandlerResponse × ExecStats :=
  let file_size_mb : ℚ := (pdf_len : ℚ) / (1024 * 1024)
  if file_size_mb > 30 then
    (.sizeError 413, { openCalls := 0, closeCalls := 0 })
  else
    let r := process_single_page o page_num
    if r.1.error.isSome then (.pageResponse r.1 500, r.2)
    else (.pageResponse r.1 200, r.2)

/-- One page's outcome in the render-all-pages operation. -/
structure PageResult where
  pageIndex : Nat
  image : Option String
  error : Option String
deriving Repr, DecidableEq

/-- The aggregate result of the render-all-pages operation. -/
structure DocumentResult where
  totalPages : Nat
  results : List PageResult
  failedPageIndices : List Nat
deriving Repr, DecidableEq

/-- Collaborator behaviour for one render-all-pages request:
`openResult` as in `Oracle`; `pageError i` is `some msg` when rendering
page `i` fails and `none` when it succeeds with encoded text
`encodedPage i`. -/
structure AllOracle where
  openResult : Option (List PageGeom)
  pageError : Nat → Option String
  encodedPage : Nat → String

/-- Modelled from the spec: the render-all-pages operation is not in
src/app.py — src/test.py posts to the bare `/convert` endpoint, but the
only route src/app.py defines is the single-page
`/convert/<int:page_num>`.  Following the spec's words: "input =
document bytes; output = DocumentResult with one PageResult per page, in
page order; never fails the whole operation except on document-open
failure", with each per-page failure recorded in that page's PageResult
and in `failedPageIndices`. -/
def process_all_pages (o : AllOracle) : Except String DocumentResult :=
  match o.openResult with
  | none => .error "DocumentInvalid"
  | some pages =>
      let n := pages.length
      let results := (List.range n).map fun i =>
        match o.pageError i with
        | some msg => PageResult.mk i none (some msg)
        | none => PageResult.mk i (some (o.encodedPage i)) none
      .ok { totalPages := n, results := results,
            failedPageIndices := (List.range n).filter fun i => (o.pageError i).isSome }

/-- A concrete collaborator behaviour (one US-letter page, every step
succeeding), used to instantiate the theorems below. -/
def oracle₀ : Oracle :=
  { openResult := some [{ width := 612, height := 792 }], stepError := none,
    rasterW := 1275, rasterH := 1650, encoded := "IMG" }

/-- A concrete render-all collaborator behaviour: two pages, the second
failing to render. -/
def allOracle₀ : AllOracle :=
  { openResult := some [{ width := 612, height := 792 }, { width := 595, height := 842 }],
    pageError := fun i => if i = 0 then none else some "render failed",
    encodedPage := fun _ => "IMG" }

/-- Helper: `adjust_for_page_size` never changes the `format` or
`optimize` fields. -/
lemma adjust_preserves_format (s : QualitySettings) (sz : ℚ) :
    (s.adjust_for_page_size sz).format = s.format ∧
    (s.adjust_for_page_size sz).optimize = s.optimize := by
  unfold QualitySettings.adjust_for_page_size
  split_ifs <;> exact ⟨rfl, rfl⟩

/-- Helper: `process_single_page` invokes `fitz.open` exactly once on
every path. -/
lemma process_single_page_openCalls (o : Oracle) (page_num : Nat) :
    (process_single_page o page_num).2.openCalls = 1 := by
  unfold process_single_page
  rcases o with ⟨op, se, rw₀, rh₀, enc⟩
  rcases op with _ | pages
  · rfl
  · dsimp only
    split
    · rfl
    · rcases se with _ | msg <;> rfl

/-- C1 counterexample: at US-letter geometry (612 × 792 points) and the
default 150 dpi, the size estimate computed by src/app.py line 145
differs from the spec's stated formula, which carries an extra factor 3
(bytes per RGB pixel). -/
theorem C1_counterexample :
    estimated_size 612 792 150 ≠ estimatedSizeSpec 612 792 150 := by
  unfold estimated_size estimatedSizeSpec
  norm_num

/-- C1 (amended): for every page geometry and dpi, the estimated size
used to select the rendering configuration equals
`width_pt * height_pt * (dpi/72)^2 / (1024*1024)` megabytes — the code
omits the spec's factor of 3 bytes per pixel. -/
theorem C1_estimated_size_formula (width height : ℚ) (dpi : Nat) :
    estimated_size width height dpi =
      width * height * ((dpi : ℚ) / 72) ^ 2 / (1024 * 1024) := by
  unfold estimated_size
  field_simp
  ring

/-- C2: whenever `fitz.open` succeeds, the `finally` block of
`process_single_page` closes the document handle exactly once, on every
exit path: successful render, out-of-range page index, or an exception
raised in any later step. -/
theorem C2_close_exactly_once (o : Oracle) (page_num : Nat)
    (h : o.openResult.isSome = true) :
    (process_single_page o page_num).2.closeCalls = 1 := by
  unfold process_single_page
  rcases o with ⟨op, se, rw₀, rh₀, enc⟩
  rcases op with _ | pages
  · simp at h
  · dsimp only
    split
    · rfl
    · rcases se with _ | msg <;> rfl

/-- C2 witness at a concrete collaborator behaviour. -/
theorem C2_close_exactly_once_witness :
    (process_single_page oracle₀ 0).2.closeCalls = 1 :=
  C2_close_exactly_once oracle₀ 0 rfl

/-- C4: an upload strictly larger than 30 MiB (31457280 bytes) is
answered by the oversize rejection (HTTP 413), a response distinct from
every decode-failure response, and the PDF decoder is never invoked. -/
theorem C4_oversize_rejected (pdf_len : Nat) (o : Oracle) (page_num : Nat)
    (h : 31457280 < pdf_len) :
    (handle_convert_page pdf_len o page_num).1 = .sizeError 413 ∧
    (handle_convert_page pdf_len o page_num).2.openCalls = 0 := by
  have hq : ((pdf_len : ℚ) / (1024 * 1024)) > 30 := by
    rw [gt_iff_lt, lt_div_iff₀ (by norm_num)]
    have : ((31457280 : Nat) : ℚ) < (pdf_len : ℚ) := by exact_mod_cast h
    norm_num at this ⊢
    linarith
  unfold handle_convert_page
  rw [if_pos hq]
  exact ⟨rfl, rfl⟩

/-- C4 witness: one byte over the ceiling. -/
theorem C4_oversize_rejected_witness :
    (handle_convert_page 31457281 oracle₀ 0).1 = .sizeError 413 ∧
    (handle_convert_page 31457281 oracle₀ 0).2.openCalls = 0 :=
  C4_oversize_rejected 31457281 oracle₀ 0 (by norm_num)

/-- C5: requesting a page index at or beyond the page count makes the
single-page operation fail as a whole: the returned dictionary carries
the page-out-of-range error and no image. -/
theorem C5_out_of_range (o : Oracle) (pages : List PageGeom) (page_num : Nat)
    (hop : o.openResult = some pages) (hn : pages.length ≤ page_num) :
    (process_single_page o page_num).1.error =
      some "Page number exceeds document length" ∧
    (process_single_page o page_num).1.image = none := by
  unfold process_single_page
  rw [hop]
  dsimp only
  rw [if_pos hn]
  exact ⟨rfl, rfl⟩

/-- C5 witness: page index 1 of a one-page document. -/
theorem C5_out_of_range_witness :
    (process_single_page oracle₀ 1).1.error =
      some "Page number exceeds document length" ∧
    (process_single_page oracle₀ 1).1.image = none :=
  C5_out_of_range oracle₀ [{ width := 612, height := 792 }] 1 rfl (by norm_num)

/-- C7: the quality policy degrades monotonically: a larger estimated
size never yields a configuration with higher dpi or higher
max_dimension than a smaller one. -/
theorem C7_policy_monotone (s1 s2 : ℚ) (h : s1 ≤ s2) :
    (QualitySettings.default.adjust_for_page_size s2).dpi ≤
      (QualitySettings.default.adjust_for_page_size s1).dpi ∧
    (QualitySettings.default.adjust_for_page_size s2).max_dimension ≤
      (QualitySettings.default.adjust_for_page_size s1).max_dimension := by
  unfold QualitySettings.adjust_for_page_size QualitySettings.default
  split_ifs <;> refine ⟨?_, ?_⟩ <;> first | (exfalso; linarith) | norm_num

/-- C7 witness at the sizes 3 MB and 20 MB. -/
theorem C7_policy_monotone_witness :
    (QualitySettings.default.adjust_for_page_size 20).dpi ≤
      (QualitySettings.default.adjust_for_page_size 3).dpi ∧
    (QualitySettings.default.adjust_for_page_size 20).max_dimension ≤
      (QualitySettings.default.adjust_for_page_size 3).max_dimension :=
  C7_policy_monotone 3 20 (by norm_num)

/-- C8: every dictionary `process_single_page` returns carries exactly
one of `image` and `error`: an image and no error, or an error and no
image. -/
theorem C8_image_xor_error (o : Oracle) (page_num : Nat) :
    ((process_single_page o page_num).1.image.isSome = true ∧
      (process_single_page o page_num).1.error = none) ∨
    ((process_single_page o page_num).1.image = none ∧
      (process_single_page o page_num).1.error.isSome = true) := by
  unfold process_single_page
  rcases o with ⟨op, se, rw₀, rh₀, enc⟩
  rcases op with _ | pages
  · right; exact ⟨rfl, rfl⟩
  · dsimp only
    split
    · right; exact ⟨rfl, rfl⟩
    · rcases se with _ | msg
      · left; exact ⟨rfl, rfl⟩
      · right; exact ⟨rfl, rfl⟩

/-- C9: the quality-adjustment step leaves the format at `"JPEG"` and
the optimize flag at `True` for every estimated size, and any settings
`process_single_page` reports having used are `"JPEG"` with optimize
on — the service never produces a PNG. -/
theorem C9_always_jpeg (sz : ℚ) (o : Oracle) (page_num : Nat) :
    (QualitySettings.default.adjust_for_page_size sz).format = "JPEG" ∧
    (QualitySettings.default.adjust_for_page_size sz).optimize = true ∧
    ((process_single_page o page_num).1.settings_used.getD
        QualitySettings.default).format = "JPEG" ∧
    ((process_single_page o page_num).1.settings_used.getD
        QualitySettings.default).optimize = true := by
  refine ⟨(adjust_preserves_format QualitySettings.default sz).1,
    (adjust_preserves_format QualitySettings.default sz).2, ?_, ?_⟩
  · unfold process_single_page
    rcases o with ⟨op, se, rw₀, rh₀, enc⟩
    rcases op with _ | pages
    · rfl
    · dsimp only
      split
      · rfl
      · rcases se with _ | msg
        · exact (adjust_preserves_format QualitySettings.default _).1
        · rfl
  · unfold process_single_page
    rcases o with ⟨op, se, rw₀, rh₀, enc⟩
    rcases op with _ | pages
    · rfl
    · dsimp only
      split
      · rfl
      · rcases se with _ | msg
        · exact (adjust_preserves_format QualitySettings.default _).2
        · rfl

/-- C10: an upload of exactly 31457280 bytes (exactly 30 MiB) passes the
strict greater-than size check: it is not rejected as too large, and the
decoder is invoked. -/
theorem C10_at_limit_not_rejected (o : Oracle) (page_num : Nat) :
    (handle_convert_page 31457280 o page_num).1 ≠ HandlerResponse.sizeError 413 ∧
    (handle_convert_page 31457280 o page_num).2.openCalls = 1 := by
  have hq : ¬ (((31457280 : Nat) : ℚ) / (1024 * 1024) > 30) := by norm_num
  unfold handle_convert_page
  rw [if_neg hq]
  dsimp only
  constructor
  · split <;> simp
  · split <;> exact process_single_page_openCalls o page_num

/-- Helper: dividing out a common scale preserves the aspect ratio up to
rounding: for `0 < m` and `w ≤ m`, the floors of `w*d/m` and `h*d/m`
have cross products within `m` of each other (one direction; the other
follows by swapping the roles of `w` and `h`). -/
lemma div_scale_aspect (m d w h : Nat) (hw : w ≤ m) (hm : 0 < m) :
    w * d / m * h < h * d / m * w + m := by
  rcases Nat.eq_zero_or_pos w with hw0 | hw0
  · subst hw0
    simpa using hm
  · have key : ∀ a : Nat, a < a / m * m + m := by
      intro a
      calc a = m * (a / m) + a % m := (Nat.div_add_mod a m).symm
        _ < m * (a / m) + m := Nat.add_lt_add_left (Nat.mod_lt a hm) _
        _ = a / m * m + m := by rw [Nat.mul_comm]
    refine Nat.lt_of_mul_lt_mul_left (a := m) ?_
    calc m * (w * d / m * h) = w * d / m * m * h := by ring
      _ ≤ w * d * h := Nat.mul_le_mul_right h (Nat.div_mul_le_self (w * d) m)
      _ = h * d * w := by ring
      _ < (h * d / m * m + m) * w := Nat.mul_lt_mul_of_lt_of_le (key (h * d)) (le_refl w) hw0
      _ = h * d / m * w * m + m * w := by ring
      _ ≤ h * d / m * w * m + m * m := Nat.add_le_add_left (Nat.mul_le_mul_left m hw) _
      _ = m * (h * d / m * w + m) := by ring

/-- Helper: when the raster exceeds `maxDim`, the scaled-down dimensions
have their longest edge exactly at `maxDim`. -/
lemma resize_long_edge (maxDim w h : Nat) (hlt : maxDim < max w h) :
    max (w * maxDim / max w h) (h * maxDim / max w h) = maxDim := by
  have hm : 0 < max w h := Nat.lt_of_le_of_lt (Nat.zero_le maxDim) hlt
  rcases le_total w h with hwh | hwh
  · have hmax : max w h = h := max_eq_right hwh
    rw [hmax] at hm ⊢
    have e1 : h * maxDim / h = maxDim := Nat.mul_div_cancel_left maxDim hm
    have e2 : w * maxDim / h ≤ maxDim := by
      calc w * maxDim / h ≤ h * maxDim / h :=
            Nat.div_le_div_right (Nat.mul_le_mul_right maxDim hwh)
        _ = maxDim := e1
    rw [e1]
    exact max_eq_right e2
  · have hmax : max w h = w := max_eq_left hwh
    rw [hmax] at hm ⊢
    have e1 : w * maxDim / w = maxDim := Nat.mul_div_cancel_left maxDim hm
    have e2 : h * maxDim / w ≤ maxDim := by
      calc h * maxDim / w ≤ w * maxDim / w :=
            Nat.div_le_div_right (Nat.mul_le_mul_right maxDim hwh)
        _ = maxDim := e1
    rw [e1]
    exact max_eq_left e2

/-- C6: when the raster's longest edge exceeds `maxDim`, the computed
output dimensions put the longest edge exactly at `maxDim`, preserve the
aspect ratio within rounding (cross products of the new and old
dimensions differ by less than the longest raster edge), and exactly one
resize is performed; when it does not, the dimensions are unchanged and
no resize is performed. -/
theorem C6_resize (maxDim w h : Nat) :
    (maxDim < max w h →
      max (resize_dims maxDim w h).1.1 (resize_dims maxDim w h).1.2 = maxDim ∧
      (resize_dims maxDim w h).1.1 * h < (resize_dims maxDim w h).1.2 * w + max w h ∧
      (resize_dims maxDim w h).1.2 * w < (resize_dims maxDim w h).1.1 * h + max w h ∧
      (resize_dims maxDim w h).2 = 1) ∧
    (max w h ≤ maxDim →
      (resize_dims maxDim w h).1 = (w, h) ∧ (resize_dims maxDim w h).2 = 0) := by
  constructor
  · intro hlt
    have hm : 0 < max w h := Nat.lt_of_le_of_lt (Nat.zero_le maxDim) hlt
    unfold resize_dims
    rw [if_pos hlt]
    exact ⟨resize_long_edge maxDim w h hlt,
      div_scale_aspect (max w h) maxDim w h (le_max_left w h) hm,
      div_scale_aspect (max w h) maxDim h w (le_max_right w h) hm, rfl⟩
  · intro hle
    unfold resize_dims
    rw [if_neg (Nat.not_lt.mpr hle)]
    exact ⟨rfl, rfl⟩

/-- C3: the render-all-pages operation (modelled from the spec) returns,
whenever the document open succeeds with N pages, a DocumentResult with
exactly N PageResult entries ordered by page index 0..N-1; only a
document-open failure fails the whole operation. -/
theorem C3_render_all_pages (o : AllOracle) (pages : List PageGeom)
    (h : o.openResult = some pages) :
    ∃ r : DocumentResult, process_all_pages o = Except.ok r ∧
      r.totalPages = pages.length ∧
      r.results.length = pages.length ∧
      ∀ i, i < pages.length →
        (r.results.getD i (PageResult.mk 0 none none)).pageIndex = i := by
  unfold process_all_pages
  rw [h]
  dsimp only
  refine ⟨_, rfl, rfl, by simp, ?_⟩
  intro i hi
  rw [List.getD_eq_getElem?_getD, List.getElem?_map, List.getElem?_range hi]
  dsimp only [Option.map, Option.getD]
  cases o.pageError i <;> rfl

/-- C3 witness: a two-page document whose second page fails to render
still yields two ordered PageResult entries. -/
theorem C3_render_all_pages_witness :
    ∃ r : DocumentResult, process_all_pages allOracle₀ = Except.ok r ∧
      r.totalPages =
        ([{ width := 612, height := 792 }, { width := 595, height := 842 }] :
          List PageGeom).length ∧
      r.results.length =
        ([{ width := 612, height := 792 }, { width := 595, height := 842 }] :
          List PageGeom).length ∧
      ∀ i, i < ([{ width := 612, height := 792 }, { width := 595, height := 842 }] :
          List PageGeom).length →
        (r.results.getD i (PageResult.mk 0 none none)).pageIndex = i :=
  C3_render_all_pages allOracle₀
    [{ width := 612, height := 792 }, { width := 595, height := 842 }] rfl
